import Mathlib

set_option linter.unusedVariables false
set_option linter.unreachableTactic false
set_option linter.unusedTactic false
set_option linter.unnecessarySeqFocus false

/-! Shallow embedding of the BIOTICA core: the IBR composite scoring and
classification engine (`src/biotica/equations_fixed.py`,
`src/biotica/ibr/composite.py`) and the tipping-point detector
(`src/biotica/statistics/tipping_points.py`).

Python floats are modelled as exact rationals, Python dicts as association
lists (or partial functions when the dict is only read), raised exceptions
as explicit error values.  The scipy rolling-statistics layer used by the
detector is an external library and is abstracted as an oracle argument. -/

/-- The five resilience tiers (`IBRClass` in `equations_fixed.py`). -/
inductive IBRClass
  | PRISTINE
  | FUNCTIONAL
  | IMPAIRED
  | DEGRADED
  | COLLAPSED
  deriving DecidableEq

/-- The fixed weight table `BIOTICACore.IBR_WEIGHTS` from
`equations_fixed.py` (identical to the table in the spec, section 3). -/
def IBR_WEIGHTS : List (String × ℚ) :=
  [("VCA", 20/100), ("MDI", 15/100), ("PTS", 12/100),
   ("HFI", 11/100), ("BNC", 10/100), ("SGH", 9/100),
   ("AES", 8/100), ("TMI", 8/100), ("RRC", 7/100)]

/-- The classification ladder inlined in `BIOTICACore.compute_ibr`
(`equations_fixed.py`, lines 60-70): top-down strict comparisons. -/
def classify_score (normalized_score : ℚ) : IBRClass :=
  if normalized_score > 88/100 then IBRClass.PRISTINE
  else if normalized_score > 75/100 then IBRClass.FUNCTIONAL
  else if normalized_score > 60/100 then IBRClass.IMPAIRED
  else if normalized_score > 45/100 then IBRClass.DEGRADED
  else IBRClass.COLLAPSED

/-- The result dictionary returned by `BIOTICACore.compute_ibr`. -/
structure IBRDict where
  score : ℚ
  normalized_score : ℚ
  classification : IBRClass
  contributions : List (String × ℚ)
  uncertainty : ℚ
  confidence : ℚ

/-- Embedding of `BIOTICACore.compute_ibr` (`equations_fixed.py`): the loop
over `IBR_WEIGHTS` accumulating `raw_score`, `total_weight` and the
`contributions` dict, followed by normalization and classification. -/
def compute_ibr (parameters : String → Option ℚ) : IBRDict :=
  let contributions : List (String × ℚ) :=
    IBR_WEIGHTS.filterMap (fun pw => (parameters pw.1).map (fun v => (pw.1, v * pw.2)))
  let raw_score : ℚ := (contributions.map Prod.snd).sum
  let total_weight : ℚ :=
    (IBR_WEIGHTS.filterMap (fun pw => (parameters pw.1).map (fun _ => pw.2))).sum
  let normalized_score : ℚ := if total_weight > 0 then raw_score / total_weight else 0
  { score := raw_score
    normalized_score := normalized_score
    classification := classify_score normalized_score
    contributions := contributions
    uncertainty := 5/100
    confidence := 95/100 }

/-- The sublist of `IBR_WEIGHTS` whose parameter is present in the given
mapping (the entries the `compute_ibr` loop actually uses). -/
def presentW (parameters : String → Option ℚ) : List (String × ℚ) :=
  IBR_WEIGHTS.filter (fun pw => (parameters pw.1).isSome)

/-- Sum of the weights of the present parameters (`total_weight`). -/
def subsetTotalWeight (parameters : String → Option ℚ) : ℚ :=
  ((presentW parameters).map Prod.snd).sum

/-- Sum of value times weight over the present parameters (`raw_score`). -/
def subsetWeightedSum (parameters : String → Option ℚ) : ℚ :=
  ((presentW parameters).map (fun pw => ((parameters pw.1).getD 0) * pw.2)).sum

lemma classify_pristine_iff (s : ℚ) : classify_score s = IBRClass.PRISTINE ↔ 88/100 < s := by
  unfold classify_score
  split_ifs with h1 h2 h3 h4 <;> simp_all <;> linarith

lemma classify_functional_iff (s : ℚ) :
    classify_score s = IBRClass.FUNCTIONAL ↔ 75/100 < s ∧ s ≤ 88/100 := by
  unfold classify_score
  split_ifs with h1 h2 h3 h4 <;> simp_all <;> intro h <;> linarith

lemma classify_impaired_iff (s : ℚ) :
    classify_score s = IBRClass.IMPAIRED ↔ 60/100 < s ∧ s ≤ 75/100 := by
  unfold classify_score
  split_ifs with h1 h2 h3 h4 <;> simp_all <;> intro h <;> linarith

lemma classify_degraded_iff (s : ℚ) :
    classify_score s = IBRClass.DEGRADED ↔ 45/100 < s ∧ s ≤ 60/100 := by
  unfold classify_score
  split_ifs with h1 h2 h3 h4 <;> simp_all <;> intro h <;> linarith

lemma classify_collapsed_iff (s : ℚ) :
    classify_score s = IBRClass.COLLAPSED ↔ s ≤ 45/100 := by
  unfold classify_score
  split_ifs with h1 h2 h3 h4 <;> simp_all <;> linarith

/-- One entry of the `self.parameters` dict of `IBRComposite`: a value and
an uncertainty (`set_parameter` / `set_parameter_result`). -/
structure ParamData where
  value : ℚ
  uncertainty : ℚ
  deriving DecidableEq

/-- The `self.parameters` dict of `IBRComposite`, as an association list in
insertion order (Python dicts preserve insertion order). -/
abbrev Params := List (String × ParamData)

/-- Key set of the parameters dict. -/
def keys (parameters : Params) : List String := parameters.map Prod.fst

/-- Python dict assignment `d[k] = v`: overwrite in place if the key is
present, otherwise append. -/
def dictInsert : Params → String → ParamData → Params
  | [], k, v => [(k, v)]
  | (k0, v0) :: rest, k, v =>
      if k0 = k then (k, v) :: rest else (k0, v0) :: dictInsert rest k v

/-- Python `uncertainty or 0.05` from `set_parameter`: `None` and the falsy
value `0.0` both fall back to the default 0.05. -/
def uncertainty_or_default : Option ℚ → ℚ
  | some u => if u = 0 then 5/100 else u
  | none => 5/100

/-- Embedding of `IBRComposite.set_parameter`: the raised `ValueError` is
modelled as `some message` in the second component, and the first component
is the parameters dict after the call (unchanged when the error is raised,
since the range check precedes the assignment). -/
def set_parameter (parameters : Params) (name : String) (value : ℚ)
    (uncertainty : Option ℚ) : Params × Option String :=
  if ¬(0 ≤ value ∧ value ≤ 1) then
    (parameters, some ("Parameter " ++ name ++ " value must be in [0,1]"))
  else
    (dictInsert parameters name ⟨value, uncertainty_or_default uncertainty⟩, none)

/-- Structured rendering of the free-text warnings produced by
`IBRComposite.validate_parameters` and `IBRComposite.compute`. -/
inductive Warning
  | missingParams (names : List String)
  | extraParams (names : List String)
  | outOfRange (name : String) (value : ℚ)
  | criticalLow (name : String) (value : ℚ)
  | unusuallyHigh (name : String) (value : ℚ)
  | collapsedState
  | degradedState
  deriving DecidableEq

/-- Whether the pattern occurs at the start of the character list. -/
def charsStartWith : List Char → List Char → Bool
  | [], _ => true
  | _ :: _, [] => false
  | p :: ps, c :: cs => p == c && charsStartWith ps cs

/-- Whether the pattern occurs anywhere inside the character list. -/
def charsContain (pat : List Char) : List Char → Bool
  | [] => charsStartWith pat []
  | c :: cs => charsStartWith pat (c :: cs) || charsContain pat cs

/-- Python's substring test `pat in s`. -/
def strContains (s pat : String) : Bool :=
  charsContain pat.toList s.toList

/-- Python `'Missing' in w` over the rendered warning text of each
warning.  The static text of the missing-parameters warning starts with
`Missing parameters:`, so it always contains the substring.  The other
warning texts (`Extra parameters (will be ignored): ...`,
`Parameter ... value ... out of range`, `Critical low value for ...`,
`Unusually high value for ...`) have static parts without `Missing`, their
numeric interpolations render to digits, signs, dots and exponent letters
only, and the `, ` join separator cannot occur inside `Missing` — so those
texts contain `Missing` exactly when an interpolated parameter name does. -/
def containsMissing : Warning → Bool
  | .missingParams _ => true
  | .extraParams names => names.any (fun n => strContains n "Missing")
  | .outOfRange name _ => strContains name "Missing"
  | .criticalLow name _ => strContains name "Missing"
  | .unusuallyHigh name _ => strContains name "Missing"
  | .collapsedState => false
  | .degradedState => false

/-- Required parameter names: the weight-table key set. -/
def required_params : List String := IBR_WEIGHTS.map Prod.fst

/-- Set difference `required_params - provided_params`. -/
def missing_of (parameters : Params) : List String :=
  required_params.filter (fun r => ¬ r ∈ keys parameters)

/-- Set difference `provided_params - required_params`. -/
def extra_of (parameters : Params) : List String :=
  (keys parameters).filter (fun k => ¬ k ∈ required_params)

/-- Range-check loop of `validate_parameters`: one warning per stored
parameter whose value is outside the closed interval from 0 to 1. -/
def range_warnings (parameters : Params) : List Warning :=
  parameters.filterMap (fun nd =>
    if ¬(0 ≤ nd.2.value ∧ nd.2.value ≤ 1) then some (.outOfRange nd.1 nd.2.value)
    else none)

/-- Extreme-value loop of `validate_parameters`: below 0.2 is critically
low, above 0.95 is unusually high. -/
def extreme_warnings (parameters : Params) : List Warning :=
  parameters.filterMap (fun nd =>
    if nd.2.value < 20/100 then some (.criticalLow nd.1 nd.2.value)
    else if nd.2.value > 95/100 then some (.unusuallyHigh nd.1 nd.2.value)
    else none)

/-- Embedding of `IBRComposite.validate_parameters`: returns
`(is_valid, warnings)`; as in the source, `is_valid` holds exactly when no
warning's rendered text contains the substring `Missing`. -/
def validate_parameters (parameters : Params) : Bool × List Warning :=
  let warnings :=
    (if missing_of parameters ≠ [] then [Warning.missingParams (missing_of parameters)] else [])
    ++ (if extra_of parameters ≠ [] then [Warning.extraParams (extra_of parameters)] else [])
    ++ range_warnings parameters ++ extreme_warnings parameters
  (warnings.countP containsMissing == 0, warnings)

/-- Modelled from the spec: `BIOTICACore._classify_ibr` lives in
`src/biotica/equations.py`, which is not among the sources (only its
callers and tests are); the spec's section 4.1 threshold table — inclusive
lower bound via strict comparison, evaluated top-down — defines it. -/
def _classify_ibr (score : ℚ) : IBRClass :=
  if score > 88/100 then IBRClass.PRISTINE
  else if score > 75/100 then IBRClass.FUNCTIONAL
  else if score > 60/100 then IBRClass.IMPAIRED
  else if score > 45/100 then IBRClass.DEGRADED
  else IBRClass.COLLAPSED

/-- Embedding of `IBRComposite._apply_biome_correction`: returns the score
unchanged. -/
def _apply_biome_correction (score : ℚ) (params : List (String × ℚ)) : ℚ :=
  score

/-- The `param_values` dict built inside `IBRComposite.compute`: stored
entries whose name is a weight-table key. -/
def param_values_of (parameters : Params) : List (String × ℚ) :=
  parameters.filterMap (fun nd =>
    if nd.1 ∈ required_params then some (nd.1, nd.2.value) else none)

/-- The `param_uncertainties` dict built inside `IBRComposite.compute`. -/
def param_uncertainties_of (parameters : Params) : List (String × ℚ) :=
  parameters.filterMap (fun nd =>
    if nd.1 ∈ required_params then some (nd.1, nd.2.uncertainty) else none)

/-- The `contributions` dict of `IBRComposite.compute`: the loop over
`IBR_WEIGHTS` keeping the parameters present in `param_values`. -/
def contributions_of (parameters : Params) : List (String × ℚ) :=
  IBR_WEIGHTS.filterMap (fun pw =>
    (List.lookup pw.1 (param_values_of parameters)).map (fun v => (pw.1, v * pw.2)))

/-- The `uncertainty_sq` accumulator of `IBRComposite.compute`: sum of
squared weight times squared uncertainty over the used parameters. -/
def uncertainty_sq_of (parameters : Params) : ℚ :=
  (IBR_WEIGHTS.filterMap (fun pw =>
    (List.lookup pw.1 (param_uncertainties_of parameters)).map
      (fun u => pw.2 ^ 2 * u ^ 2))).sum

/-- The `IBRResult` dataclass of `composite.py`.  The real-valued
`uncertainty` and `confidence` fields are recovered from the exact
radicand `uncertainty_sq` by `IBRResult.uncertainty` and
`IBRResult.confidence` below. -/
structure IBRResult where
  score : ℚ
  classification : IBRClass
  contributions : List (String × ℚ)
  uncertainty_sq : ℚ
  biome : Option String
  warnings : List Warning
  n_parameters : ℕ
  validation_passed : Bool
  deriving DecidableEq

/-- Body of `IBRComposite.compute` after the validation gate: scoring,
optional biome correction, uncertainty accumulation, classification of the
(raw) score, and the post-score threshold warnings. -/
def computeBody (parameters : Params) (biome : Option String)
    (warnings0 : List Warning) (validate : Bool) : IBRResult :=
  let score0 : ℚ := ((contributions_of parameters).map Prod.snd).sum
  let ibr_score : ℚ :=
    match biome with
    | some _ => _apply_biome_correction score0 (param_values_of parameters)
    | none => score0
  let warnings :=
    if ibr_score < 45/100 then warnings0 ++ [Warning.collapsedState]
    else if ibr_score < 60/100 then warnings0 ++ [Warning.degradedState]
    else warnings0
  { score := ibr_score
    classification := _classify_ibr ibr_score
    contributions := contributions_of parameters
    uncertainty_sq := uncertainty_sq_of parameters
    biome := biome
    warnings := warnings
    n_parameters := (param_values_of parameters).length
    validation_passed := validate }

/-- Embedding of `IBRComposite.compute`: with `validate` set, a failed
validation raises `ValueError` carrying the warnings list (modelled as
`Except.error`); otherwise the body runs with the validation warnings (or
an empty list when validation is skipped). -/
def compute (parameters : Params) (biome : Option String)
    (validate : Bool) : Except (List Warning) IBRResult :=
  if validate then
    let v := validate_parameters parameters
    if v.1 = false then Except.error v.2
    else Except.ok (computeBody parameters biome v.2 true)
  else Except.ok (computeBody parameters biome [] false)

/-- The `uncertainty` field of the Python `IBRResult`:
`sqrt(uncertainty_sq)`. -/
noncomputable def IBRResult.uncertainty (r : IBRResult) : ℝ :=
  Real.sqrt (r.uncertainty_sq : ℝ)

/-- The `confidence` field of the Python `IBRResult`: `1 - uncertainty`,
with no clamping. -/
noncomputable def IBRResult.confidence (r : IBRResult) : ℝ :=
  1 - r.uncertainty

lemma filterMap_map_snd (parameters : String → Option ℚ) (l : List (String × ℚ)) :
    ((l.filterMap (fun pw => (parameters pw.1).map (fun v => (pw.1, v * pw.2)))).map Prod.snd)
      = (l.filter (fun pw => (parameters pw.1).isSome)).map
          (fun pw => ((parameters pw.1).getD 0) * pw.2) := by
  induction l with
  | nil => simp
  | cons a t ih => cases h : parameters a.1 <;> simp [h, ih]

lemma filterMap_weights (parameters : String → Option ℚ) (l : List (String × ℚ)) :
    (l.filterMap (fun pw => (parameters pw.1).map (fun _ => pw.2)))
      = (l.filter (fun pw => (parameters pw.1).isSome)).map Prod.snd := by
  induction l with
  | nil => simp
  | cons a t ih => cases h : parameters a.1 <;> simp [h, ih]

lemma list_sum_map_div {α : Type} (l : List α) (f : α → ℚ) (T : ℚ) :
    (l.map (fun x => f x / T)).sum = (l.map f).sum / T := by
  induction l with
  | nil => simp
  | cons a t ih => simp [ih, add_div]

lemma IBR_WEIGHTS_pos : ∀ pw ∈ IBR_WEIGHTS, 0 < pw.2 := by
  intro pw h
  fin_cases h <;> norm_num

lemma compute_ibr_normalized (parameters : String → Option ℚ) :
    (compute_ibr parameters).normalized_score
      = if 0 < subsetTotalWeight parameters
        then subsetWeightedSum parameters / subsetTotalWeight parameters
        else 0 := by
  unfold compute_ibr subsetWeightedSum subsetTotalWeight presentW
  dsimp only
  rw [filterMap_map_snd, filterMap_weights]

/-- C2: for every non-empty set of present weighted parameters,
`normalized_score` is the weighted average restricted to the present
subset (sum of value times weight divided by the sum of the present
weights, whose renormalized weights sum to 1); with no weighted parameter
present it is 0. -/
theorem C2_normalized_score_weighted_average (parameters : String → Option ℚ) :
    (presentW parameters ≠ [] →
      0 < subsetTotalWeight parameters
      ∧ (compute_ibr parameters).normalized_score
          = subsetWeightedSum parameters / subsetTotalWeight parameters
      ∧ ((presentW parameters).map (fun pw => pw.2 / subsetTotalWeight parameters)).sum = 1)
    ∧ (presentW parameters = [] → (compute_ibr parameters).normalized_score = 0) := by
  constructor
  · intro hne
    have hT : 0 < subsetTotalWeight parameters := by
      apply List.sum_pos
      · intro x hx
        rcases List.mem_map.mp hx with ⟨pw, hpw, rfl⟩
        exact IBR_WEIGHTS_pos pw (List.mem_of_mem_filter hpw)
      · simpa using hne
    refine ⟨hT, ?_, ?_⟩
    · rw [compute_ibr_normalized, if_pos hT]
    · rw [list_sum_map_div (presentW parameters) Prod.snd]
      exact div_self (ne_of_gt hT)
  · intro hnil
    have hT : subsetTotalWeight parameters = 0 := by
      simp [subsetTotalWeight, hnil]
    rw [compute_ibr_normalized, hT]
    simp

/-- Parameter mapping holding only VCA, used to instantiate the
subset-normalization theorem. -/
def pExample : String → Option ℚ :=
  fun n => if n = "VCA" then some (85/100) else none

/-- Witness for C2 at the single-parameter mapping holding only VCA. -/
theorem C2_witness :
    presentW pExample ≠ []
    ∧ (0 < subsetTotalWeight pExample
      ∧ (compute_ibr pExample).normalized_score
          = subsetWeightedSum pExample / subsetTotalWeight pExample
      ∧ ((presentW pExample).map (fun pw => pw.2 / subsetTotalWeight pExample)).sum = 1) :=
  ⟨by decide, (C2_normalized_score_weighted_average pExample).1 (by decide)⟩

lemma range_warnings_clean (parameters : Params)
    (hclean : ∀ n ∈ keys parameters, strContains n "Missing" = false) :
    ∀ w ∈ range_warnings parameters, containsMissing w = false := by
  intro w hw
  rcases List.mem_filterMap.mp hw with ⟨nd, hnd, heq⟩
  split_ifs at heq <;> cases heq <;>
    exact hclean nd.1 (List.mem_map.mpr ⟨nd, hnd, rfl⟩)

lemma extreme_warnings_clean (parameters : Params)
    (hclean : ∀ n ∈ keys parameters, strContains n "Missing" = false) :
    ∀ w ∈ extreme_warnings parameters, containsMissing w = false := by
  intro w hw
  rcases List.mem_filterMap.mp hw with ⟨nd, hnd, heq⟩
  split_ifs at heq <;> cases heq <;>
    exact hclean nd.1 (List.mem_map.mpr ⟨nd, hnd, rfl⟩)

lemma extra_warning_clean (parameters : Params)
    (hclean : ∀ n ∈ keys parameters, strContains n "Missing" = false) :
    ∀ w ∈ (if extra_of parameters ≠ [] then [Warning.extraParams (extra_of parameters)]
           else ([] : List Warning)), containsMissing w = false := by
  intro w hw
  split_ifs at hw
  · rcases List.mem_singleton.mp hw with rfl
    show (extra_of parameters).any (fun m => strContains m "Missing") = false
    rw [Bool.eq_false_iff]
    intro hany
    rcases List.any_eq_true.mp hany with ⟨m, hm, hmM⟩
    have hk : m ∈ keys parameters := List.mem_of_mem_filter hm
    rw [hclean m hk] at hmM
    exact Bool.noConfusion hmM
  · cases hw

lemma required_params_clean :
    ∀ r ∈ required_params, strContains r "Missing" = false := by
  decide

lemma validate_countP_iff (parameters : Params) :
    (validate_parameters parameters).1 = true
      ↔ ∀ w ∈ (validate_parameters parameters).2, containsMissing w = false := by
  unfold validate_parameters
  dsimp only
  rw [beq_iff_eq, List.countP_eq_zero]
  simp

lemma missing_warning_mem (parameters : Params) (h : missing_of parameters ≠ []) :
    Warning.missingParams (missing_of parameters) ∈ (validate_parameters parameters).2 := by
  unfold validate_parameters
  dsimp only
  rw [if_pos h]
  exact List.mem_append_left _ (List.mem_append_left _ (List.mem_append_left _ (by simp)))

lemma extra_warning_mem (parameters : Params) (h : extra_of parameters ≠ []) :
    Warning.extraParams (extra_of parameters) ∈ (validate_parameters parameters).2 := by
  unfold validate_parameters
  dsimp only
  rw [if_pos h]
  exact List.mem_append_left _ (List.mem_append_left _ (List.mem_append_right _ (by simp)))

lemma validate_parameters_valid_iff (parameters : Params) :
    (validate_parameters parameters).1 = true
      ↔ (missing_of parameters = []
        ∧ ∀ n ∈ keys parameters, strContains n "Missing" = false) := by
  rw [validate_countP_iff]
  constructor
  · intro hall
    constructor
    · by_contra hm
      have htrue : containsMissing (Warning.missingParams (missing_of parameters)) = true :=
        rfl
      rw [hall _ (missing_warning_mem parameters hm)] at htrue
      exact Bool.noConfusion htrue
    · intro n hn
      rw [Bool.eq_false_iff]
      intro hM
      have hnr : ¬ n ∈ required_params := by
        intro hr
        rw [required_params_clean n hr] at hM
        exact Bool.noConfusion hM
      have hnx : n ∈ extra_of parameters :=
        List.mem_filter.mpr ⟨hn, by simpa using hnr⟩
      have hmem := hall _ (extra_warning_mem parameters (List.ne_nil_of_mem hnx))
      have heq : containsMissing (Warning.extraParams (extra_of parameters))
          = (extra_of parameters).any (fun m => strContains m "Missing") := rfl
      rw [heq] at hmem
      have hany : (extra_of parameters).any (fun m => strContains m "Missing") = true :=
        List.any_eq_true.mpr ⟨n, hnx, hM⟩
      rw [hmem] at hany
      exact Bool.noConfusion hany
  · rintro ⟨hm0, hclean⟩
    intro w hw
    unfold validate_parameters at hw
    dsimp only at hw
    rw [if_neg (not_not_intro hm0)] at hw
    simp only [List.nil_append] at hw
    rcases List.mem_append.mp hw with hw2 | hw4
    · rcases List.mem_append.mp hw2 with hw2a | hw3
      · exact extra_warning_clean parameters hclean w hw2a
      · exact range_warnings_clean parameters hclean w hw3
    · exact extreme_warnings_clean parameters hclean w hw4

/-- C5 (amended): whenever a required (weight-table) parameter is absent,
`compute` with validation raises the validation error carrying the
warnings list, and `validate_parameters` reports invalid with a non-empty
warnings list naming every missing parameter; with no required parameter
missing and no stored parameter name containing the substring `Missing`
(the source decides validity by testing that substring over the rendered
warning texts), validation always passes and `compute` always succeeds,
whatever the stored values. -/
theorem C5_missing_required_fails_validation (parameters : Params) (biome : Option String) :
    ((∃ r ∈ required_params, r ∉ keys parameters) →
      (validate_parameters parameters).1 = false
      ∧ (validate_parameters parameters).2 ≠ []
      ∧ (∀ r ∈ required_params, r ∉ keys parameters →
          ∃ names, Warning.missingParams names ∈ (validate_parameters parameters).2 ∧ r ∈ names)
      ∧ compute parameters biome true = Except.error (validate_parameters parameters).2)
    ∧ ((∀ r ∈ required_params, r ∈ keys parameters) →
      (∀ n ∈ keys parameters, strContains n "Missing" = false) →
      (validate_parameters parameters).1 = true
      ∧ ∀ validate, ∃ res, compute parameters biome validate = Except.ok res) := by
  constructor
  · rintro ⟨r, hr, hnk⟩
    have hmem : r ∈ missing_of parameters :=
      List.mem_filter.mpr ⟨hr, by simpa using hnk⟩
    have hmiss : missing_of parameters ≠ [] := by
      intro h0
      rw [h0] at hmem
      exact absurd hmem (List.not_mem_nil r)
    have hfalse : (validate_parameters parameters).1 = false :=
      Bool.eq_false_iff.mpr (fun h => hmiss ((validate_parameters_valid_iff parameters).1 h).1)
    refine ⟨hfalse, ?_, ?_, ?_⟩
    · exact List.ne_nil_of_mem (missing_warning_mem parameters hmiss)
    · intro r2 hr2 hnk2
      exact ⟨missing_of parameters, missing_warning_mem parameters hmiss,
        List.mem_filter.mpr ⟨hr2, by simpa using hnk2⟩⟩
    · simp only [compute, if_true]
      rw [if_pos hfalse]
  · intro hall hclean
    have hm0 : missing_of parameters = [] := by
      unfold missing_of
      rw [List.filter_eq_nil_iff]
      intro r hr
      simp [hall r hr]
    have hvalid : (validate_parameters parameters).1 = true :=
      (validate_parameters_valid_iff parameters).2 ⟨hm0, hclean⟩
    refine ⟨hvalid, ?_⟩
    intro validate
    cases validate
    · exact ⟨computeBody parameters biome [] false, rfl⟩
    · refine ⟨computeBody parameters biome (validate_parameters parameters).2 true, ?_⟩
      simp only [compute, if_true]
      rw [if_neg (by rw [hvalid]; simp)]

/-- Parameters dict holding only VCA, for instantiating the validation
theorem on the missing-parameters side. -/
def pOne : Params := [("VCA", ⟨85/100, 5/100⟩)]

/-- Witness for C5: with only VCA stored, validation fails, the missing
warning names the absent parameters, and strict compute errors out. -/
theorem C5_witness :
    (∃ r ∈ required_params, r ∉ keys pOne)
    ∧ ((validate_parameters pOne).1 = false
      ∧ (validate_parameters pOne).2 ≠ []
      ∧ (∀ r ∈ required_params, r ∉ keys pOne →
          ∃ names, Warning.missingParams names ∈ (validate_parameters pOne).2 ∧ r ∈ names)
      ∧ compute pOne none true = Except.error (validate_parameters pOne).2) :=
  ⟨⟨"MDI", by decide, by decide⟩,
    (C5_missing_required_fails_validation pOne none).1 ⟨"MDI", by decide, by decide⟩⟩

/-- Parameters dict holding all nine required parameters (in range) plus
an extra parameter whose name contains the substring `Missing`. -/
def pME : Params :=
  [("VCA", ⟨1/2, 1/20⟩), ("MDI", ⟨1/2, 1/20⟩), ("PTS", ⟨1/2, 1/20⟩),
   ("HFI", ⟨1/2, 1/20⟩), ("BNC", ⟨1/2, 1/20⟩), ("SGH", ⟨1/2, 1/20⟩),
   ("AES", ⟨1/2, 1/20⟩), ("TMI", ⟨1/2, 1/20⟩), ("RRC", ⟨1/2, 1/20⟩),
   ("MissingExtra", ⟨1/2, 1/20⟩)]

/-- Counterexample for C5 as stated: with every required parameter
present, the extra parameter named `MissingExtra` makes the rendered
extra-parameters warning contain the substring `Missing`, so the source's
substring validity test fails and strict `compute` raises. -/
theorem C5_counterexample :
    missing_of pME = []
    ∧ (validate_parameters pME).1 = false
    ∧ compute pME none true = Except.error (validate_parameters pME).2 := by
  have hfalse : (validate_parameters pME).1 = false := by
    rw [Bool.eq_false_iff]
    intro htrue
    have hclean := ((validate_parameters_valid_iff pME).1 htrue).2
    have hme := hclean "MissingExtra" (by decide)
    rw [show strContains "MissingExtra" "Missing" = true from by decide] at hme
    exact Bool.noConfusion hme
  refine ⟨by decide, hfalse, ?_⟩
  simp only [compute, if_true]
  rw [if_pos hfalse]

/-- C1 (code evaluation): the classification ladder on `normalized_score`
holds of `BIOTICACore.compute_ibr` — with the claimed strict thresholds
and boundary behavior at 0.4499/0.4501 — but `IBRComposite.compute`
classifies the raw, unnormalized weighted sum: with only VCA = 0.85
stored, the composite result has score 0.17 and is classified COLLAPSED,
although its normalized score 0.85 classifies FUNCTIONAL, so on strict
subsets the composite classification is not a function of the normalized
score. -/
theorem C1_composite_classifies_raw_score :
    (∀ parameters : String → Option ℚ,
      (compute_ibr parameters).classification
        = classify_score ((compute_ibr parameters).normalized_score))
    ∧ (∀ s : ℚ,
        (classify_score s = IBRClass.PRISTINE ↔ 88/100 < s)
      ∧ (classify_score s = IBRClass.FUNCTIONAL ↔ 75/100 < s ∧ s ≤ 88/100)
      ∧ (classify_score s = IBRClass.IMPAIRED ↔ 60/100 < s ∧ s ≤ 75/100)
      ∧ (classify_score s = IBRClass.DEGRADED ↔ 45/100 < s ∧ s ≤ 60/100)
      ∧ (classify_score s = IBRClass.COLLAPSED ↔ s ≤ 45/100))
    ∧ classify_score (4499/10000) = IBRClass.COLLAPSED
    ∧ classify_score (4501/10000) = IBRClass.DEGRADED
    ∧ compute pOne none false = Except.ok (computeBody pOne none [] false)
    ∧ (computeBody pOne none [] false).score = 17/100
    ∧ (computeBody pOne none [] false).classification = IBRClass.COLLAPSED
    ∧ (compute_ibr pExample).normalized_score = 85/100
    ∧ (compute_ibr pExample).classification = IBRClass.FUNCTIONAL := by
  have hscore : (computeBody pOne none [] false).score = 17/100 := by
    show ((contributions_of pOne).map Prod.snd).sum = 17/100
    simp +decide [contributions_of, param_values_of, pOne, IBR_WEIGHTS,
      required_params, List.lookup]
    norm_num
  have hclsO : (computeBody pOne none [] false).classification = IBRClass.COLLAPSED := by
    have hc : (computeBody pOne none [] false).classification
        = _classify_ibr ((computeBody pOne none [] false).score) := rfl
    rw [hc, hscore]
    unfold _classify_ibr
    norm_num
  have hp : presentW pExample = [("VCA", 20/100)] := by
    simp +decide [presentW, pExample, IBR_WEIGHTS]
  have hT : subsetTotalWeight pExample = 20/100 := by
    rw [subsetTotalWeight, hp]
    simp
  have hS : subsetWeightedSum pExample = 17/100 := by
    rw [subsetWeightedSum, hp]
    simp +decide [pExample]
    norm_num
  have hns : (compute_ibr pExample).normalized_score = 85/100 := by
    rw [compute_ibr_normalized, if_pos (by rw [hT]; norm_num), hT, hS]
    norm_num
  have hclsE : (compute_ibr pExample).classification = IBRClass.FUNCTIONAL := by
    have hc : (compute_ibr pExample).classification
        = classify_score ((compute_ibr pExample).normalized_score) := rfl
    rw [hc, hns, classify_functional_iff]
    norm_num
  refine ⟨fun parameters => rfl, ?_, by rw [classify_collapsed_iff]; norm_num,
    by rw [classify_degraded_iff]; norm_num, rfl, hscore, hclsO, hns, hclsE⟩
  intro s
  exact ⟨classify_pristine_iff s, classify_functional_iff s, classify_impaired_iff s,
    classify_degraded_iff s, classify_collapsed_iff s⟩

/-- C9: the single-parameter setter errors exactly on values outside the
unit interval, leaving the stored dict unchanged on error and inserting
the value otherwise; an out-of-range value already stored only yields an
advisory warning from batch validation, whose verdict depends on the
stored names alone (missing required names, or a stored name containing
the substring `Missing`) — never on the stored values, so an out-of-range
value by itself never raises. -/
theorem C9_setter_strict_batch_advisory (parameters : Params) (name : String)
    (value : ℚ) (u : Option ℚ) :
    ((set_parameter parameters name value u).2.isSome = true ↔ ¬(0 ≤ value ∧ value ≤ 1))
    ∧ (¬(0 ≤ value ∧ value ≤ 1) → (set_parameter parameters name value u).1 = parameters)
    ∧ ((0 ≤ value ∧ value ≤ 1) →
        (set_parameter parameters name value u)
          = (dictInsert parameters name ⟨value, uncertainty_or_default u⟩, none))
    ∧ (∀ n d, (n, d) ∈ parameters → ¬(0 ≤ d.value ∧ d.value ≤ 1) →
        Warning.outOfRange n d.value ∈ (validate_parameters parameters).2)
    ∧ ((validate_parameters parameters).1 = true
        ↔ (missing_of parameters = []
          ∧ ∀ n ∈ keys parameters, strContains n "Missing" = false)) := by
  refine ⟨?_, ?_, ?_, ?_, ?_⟩
  · unfold set_parameter
    split_ifs with h <;> simp [h]
  · intro h
    unfold set_parameter
    rw [if_pos h]
  · intro h
    unfold set_parameter
    rw [if_neg (not_not_intro h)]
  · intro n d hmem hbad
    have hr : Warning.outOfRange n d.value ∈ range_warnings parameters :=
      List.mem_filterMap.mpr ⟨(n, d), hmem, by rw [if_pos hbad]⟩
    unfold validate_parameters
    dsimp only
    exact List.mem_append_left _ (List.mem_append_right _ hr)
  · exact validate_parameters_valid_iff parameters

/-- Parameters dict holding a single out-of-range stored value. -/
def pBad : Params := [("VCA", ⟨3/2, 1/20⟩)]

/-- Witness for C9: setting 1.5 errors and leaves the dict unchanged, and
a stored 1.5 only produces an advisory out-of-range warning. -/
theorem C9_witness :
    ¬((0:ℚ) ≤ 3/2 ∧ (3/2:ℚ) ≤ 1)
    ∧ ((set_parameter pBad "MDI" (3/2) none).2.isSome = true ↔ ¬((0:ℚ) ≤ 3/2 ∧ (3/2:ℚ) ≤ 1))
    ∧ (set_parameter pBad "MDI" (3/2) none).1 = pBad
    ∧ Warning.outOfRange "VCA" (3/2) ∈ (validate_parameters pBad).2 :=
  ⟨by norm_num,
   (C9_setter_strict_batch_advisory pBad "MDI" (3/2) none).1,
   (C9_setter_strict_batch_advisory pBad "MDI" (3/2) none).2.1 (by norm_num),
   (C9_setter_strict_batch_advisory pBad "MDI" (3/2) none).2.2.2.1 "VCA" ⟨3/2, 1/20⟩
     (List.mem_singleton.mpr rfl) (by norm_num)⟩

/-- Every field of an `IBRResult` except the `biome` metadata field. -/
def stripBiome (r : IBRResult) :
    ℚ × IBRClass × List (String × ℚ) × ℚ × List Warning × ℕ × Bool :=
  (r.score, r.classification, r.contributions, r.uncertainty_sq, r.warnings,
    r.n_parameters, r.validation_passed)

/-- C10: the biome-correction hook is the identity, so `compute` returns
the same score, classification, contributions, uncertainty and warnings
with or without a biome — only the `biome` metadata field differs. -/
theorem C10_biome_correction_identity :
    (∀ (s : ℚ) (p : List (String × ℚ)), _apply_biome_correction s p = s)
    ∧ (∀ (parameters : Params) (b : String) (validate : Bool),
        Except.map stripBiome (compute parameters (some b) validate)
          = Except.map stripBiome (compute parameters none validate)) := by
  refine ⟨fun s p => rfl, ?_⟩
  intro ps b v
  cases v
  · rfl
  · have hc : ∀ (bio : Option String), compute ps bio true =
        (if (validate_parameters ps).1 = false then Except.error (validate_parameters ps).2
         else Except.ok (computeBody ps bio (validate_parameters ps).2 true)) :=
      fun bio => rfl
    rw [hc, hc]
    split_ifs with h
    · rfl
    · rfl

lemma filterMap_lookup_sum (m : List (String × ℚ)) (f : (String × ℚ) → ℚ → ℚ)
    (l : List (String × ℚ)) :
    (l.filterMap (fun pw => (List.lookup pw.1 m).map (f pw))).sum
      = (l.map (fun pw =>
          match List.lookup pw.1 m with
          | some u => f pw u
          | none => 0)).sum := by
  induction l with
  | nil => simp
  | cons a t ih => cases h : List.lookup a.1 m <;> simp [h, ih]

/-- Parameters dict with a single admissible value carrying a large
uncertainty, driving the propagated uncertainty above 1. -/
def pC6 : Params := [("VCA", ⟨85/100, 10⟩)]

/-- C6: the propagated `uncertainty_sq` is the sum over used parameters of
squared weight times squared uncertainty (so `uncertainty` is its square
root) and `confidence` is `1 - uncertainty` with no clamping; an
admissible input built through the setter makes confidence negative. -/
theorem C6_confidence_unclamped :
    (∀ (parameters : Params) (biome : Option String) (warnings0 : List Warning)
        (validate : Bool),
      (computeBody parameters biome warnings0 validate).uncertainty_sq
        = (IBR_WEIGHTS.map (fun pw =>
            match List.lookup pw.1 (param_uncertainties_of parameters) with
            | some u => pw.2 ^ 2 * u ^ 2
            | none => 0)).sum
      ∧ (computeBody parameters biome warnings0 validate).confidence
          = 1 - Real.sqrt ((computeBody parameters biome warnings0 validate).uncertainty_sq : ℝ))
    ∧ (∀ (parameters : Params) (biome : Option String),
        compute parameters biome false = Except.ok (computeBody parameters biome [] false))
    ∧ (set_parameter [] "VCA" (85/100) (some 10)).1 = pC6
    ∧ (set_parameter [] "VCA" (85/100) (some 10)).2 = none
    ∧ (computeBody pC6 none [] false).confidence < 0 := by
  refine ⟨?_, fun ps bio => rfl, ?_, ?_, ?_⟩
  · intro ps bio w0 v
    constructor
    · show uncertainty_sq_of ps = _
      unfold uncertainty_sq_of
      rw [filterMap_lookup_sum]
    · rfl
  · norm_num [set_parameter, dictInsert, uncertainty_or_default, pC6]
  · norm_num [set_parameter]
  · have h4 : (computeBody pC6 none [] false).uncertainty_sq = 4 := by
      show uncertainty_sq_of pC6 = 4
      simp +decide [uncertainty_sq_of, param_uncertainties_of, pC6, IBR_WEIGHTS,
        required_params, List.lookup]
      norm_num
    unfold IBRResult.confidence IBRResult.uncertainty
    rw [h4]
    have hs : ((4 : ℚ) : ℝ) = (2 : ℝ) ^ 2 := by norm_num
    rw [hs, Real.sqrt_sq (by norm_num : (0:ℝ) ≤ 2)]
    norm_num

/-- Constructor configuration of `TippingPointDetector`. -/
structure DetectorConfig where
  window : ℕ
  lag : ℕ
  min_data_points : ℕ
  significance_level : ℚ
  detrend : Bool

/-- A Kendall-tau trend statistic with its two-sided p-value, as returned
by `scipy.stats.kendalltau`. -/
structure TrendStat where
  tau : ℚ
  p : ℚ

/-- The four trend statistics `detect` derives from the rolling-window
statistics of the (detrended) series: variance, lag autocorrelation,
skewness and the spectral recovery-rate proxy.  Bundled as the output of
the scipy-based rolling layer (lines 124-160 of `tipping_points.py`),
which this embedding abstracts as an oracle. -/
structure RollingTrends where
  variance : TrendStat
  autocorrelation : TrendStat
  skewness : TrendStat
  recovery_rate : TrendStat

/-- The `TippingPointResult` dataclass.  The `metrics` dict and the
remaining `metadata` entries are pure echoes of the inputs and are not
modelled; `metadata_error` is `some note` exactly when the source puts an
`error` key into `metadata`. -/
structure TippingPointResult where
  critical_slowing_down : Bool
  warning_level : ℤ
  variance_trend : ℚ
  autocorrelation_trend : ℚ
  skewness_trend : ℚ
  recovery_rate_trend : ℚ
  estimated_months : ℤ
  confidence : ℚ
  metadata_error : Option String

/-- NaN removal: the input series is a list of float entries where `none`
stands for NaN. -/
def dropNaN (timeseries : List (Option ℚ)) : List ℚ :=
  timeseries.filterMap id

/-- Timestamps are filtered by the same validity mask as the series. -/
def filtered_timestamps (timeseries : List (Option ℚ))
    (timestamps : Option (List ℚ)) : Option (List ℚ) :=
  timestamps.map (fun st =>
    (timeseries.zip st).filterMap (fun xt => xt.1.map (fun _ => xt.2)))

/-- Insertion into a sorted list, for the median computation. -/
def insertSorted (x : ℚ) : List ℚ → List ℚ
  | [] => [x]
  | y :: ys => if x ≤ y then x :: y :: ys else y :: insertSorted x ys

/-- Insertion sort over rationals. -/
def sortQ : List ℚ → List ℚ
  | [] => []
  | x :: xs => insertSorted x (sortQ xs)

/-- The `numpy.median`: middle element of the sorted list, or the mean of
the two middle elements for even length (0 on an empty list, which the
source never queries). -/
def np_median (l : List ℚ) : ℚ :=
  let s := sortQ l
  let n := s.length
  if n = 0 then 0
  else if n % 2 = 1 then s.getD (n / 2) 0
  else (s.getD (n / 2 - 1) 0 + s.getD (n / 2) 0) / 2

/-- The `numpy.diff` of a list. -/
def diffs : List ℚ → List ℚ
  | a :: b :: rest => (b - a) :: diffs (b :: rest)
  | _ => []

/-- The `months_per_step` conversion factor computed at the top of
`_estimate_time_to_tipping` from the median timestamp step: at most 31 is
taken as daily data (1/30.44 months per step), at most 365 as monthly
(1), otherwise annual (12); without usable timestamps it defaults to 1. -/
def months_per_step (timestamps : Option (List ℚ)) : ℚ :=
  match timestamps with
  | some ts =>
      if 1 < ts.length then
        let median_step := np_median (diffs ts)
        if median_step ≤ 31 then 25/761
        else if median_step ≤ 365 then 1
        else 12
      else 1
  | none => 1

/-- Embedding of `TippingPointDetector._estimate_time_to_tipping`.  The
conversion factor `months_per_step` is computed exactly as in the source
and, exactly as in the source, never used: the returned month count comes
from the trend-strength ladder alone. -/
def _estimate_time_to_tipping (tau_var tau_ac : ℚ) (timeseries : List ℚ)
    (timestamps : Option (List ℚ)) : ℤ :=
  let _months_per_step := months_per_step timestamps
  let trend_strength := (|tau_var| + |tau_ac|) / 2
  if trend_strength > 3/10 then 12
  else if trend_strength > 1/5 then 24
  else if trend_strength > 1/10 then 36
  else 60

/-- The warning-level accumulation of `detect` (lines 162-195): sequential
increments of 1 or 0.5 per indicator, then floored and capped at 3. -/
def warning_level_of (cfg : DetectorConfig) (t : RollingTrends) : ℤ :=
  let wl0 : ℚ := 0
  let wl1 := if t.variance.tau > 1/5 ∧ t.variance.p < cfg.significance_level then wl0 + 1
             else if t.variance.tau > 1/10 then wl0 + 1/2 else wl0
  let wl2 := if t.autocorrelation.tau > 1/5 ∧ t.autocorrelation.p < cfg.significance_level
             then wl1 + 1
             else if t.autocorrelation.tau > 1/10 then wl1 + 1/2 else wl1
  let wl3 := if |t.skewness.tau| > 3/20 ∧ t.skewness.p < cfg.significance_level
             then wl2 + 1/2 else wl2
  let wl4 := if t.recovery_rate.tau < -(3/20) ∧ t.recovery_rate.p < cfg.significance_level
             then wl3 + 1/2 else wl3
  min ⌊wl4⌋ 3

/-- Embedding of `TippingPointDetector._calculate_confidence`: additive
contributions from the warning level, the two p-values and the sample
size, capped at 1. -/
def _calculate_confidence (warning_level : ℤ) (p_var p_ac : ℚ)
    (n_points : ℕ) : ℚ :=
  let c0 : ℚ := 0
  let c1 := c0 + (warning_level : ℚ) * (2/10)
  let c2 := if p_var < 1/100 then c1 + 2/10 else if p_var < 1/20 then c1 + 1/10 else c1
  let c3 := if p_ac < 1/100 then c2 + 2/10 else if p_ac < 1/20 then c2 + 1/10 else c2
  let c4 := if n_points > 200 then c3 + 2/10 else if n_points > 100 then c3 + 1/10 else c3
  min c4 1

/-- Embedding of `TippingPointDetector._fallback_result`, returned when
the statistical library is unavailable. -/
def _fallback_result : TippingPointResult :=
  { critical_slowing_down := false
    warning_level := 0
    variance_trend := 0
    autocorrelation_trend := 0
    skewness_trend := 0
    recovery_rate_trend := 0
    estimated_months := 0
    confidence := 0
    metadata_error := some "SciPy not available" }

/-- Embedding of `TippingPointDetector.detect`.  `scipy_available` mirrors
the `SCIPY_AVAILABLE` module flag; `trends` is the oracle standing for the
scipy detrend/rolling-statistics/kendalltau layer applied to the cleaned
series (the claims hold for every value of this oracle). -/
def detect (cfg : DetectorConfig) (scipy_available : Bool)
    (trends : List ℚ → RollingTrends) (timeseries : List (Option ℚ))
    (timestamps : Option (List ℚ)) : TippingPointResult :=
  if scipy_available = false then _fallback_result
  else
    let ts := dropNaN timeseries
    if ts.length < cfg.min_data_points then
      { critical_slowing_down := false
        warning_level := 0
        variance_trend := 0
        autocorrelation_trend := 0
        skewness_trend := 0
        recovery_rate_trend := 0
        estimated_months := 0
        confidence := 0
        metadata_error := some ("Insufficient data: " ++ toString ts.length
          ++ " < " ++ toString cfg.min_data_points) }
    else
      let t := trends ts
      let wl := warning_level_of cfg t
      let em := _estimate_time_to_tipping t.variance.tau t.autocorrelation.tau ts
        (filtered_timestamps timeseries timestamps)
      let conf := _calculate_confidence wl t.variance.p t.autocorrelation.p ts.length
      { critical_slowing_down := decide (wl ≥ 2)
        warning_level := wl
        variance_trend := t.variance.tau
        autocorrelation_trend := t.autocorrelation.tau
        skewness_trend := t.skewness.tau
        recovery_rate_trend := t.recovery_rate.tau
        estimated_months := em
        confidence := conf
        metadata_error := none }

/-- The claim-side warning accumulation: the sum of the four indicator
contributions (1 or 0.5 each, as described in the spec). -/
def warning_accum (cfg : DetectorConfig) (t : RollingTrends) : ℚ :=
  (if t.variance.tau > 1/5 ∧ t.variance.p < cfg.significance_level then (1:ℚ)
   else if t.variance.tau > 1/10 then 1/2 else 0)
  + (if t.autocorrelation.tau > 1/5 ∧ t.autocorrelation.p < cfg.significance_level then (1:ℚ)
     else if t.autocorrelation.tau > 1/10 then 1/2 else 0)
  + (if |t.skewness.tau| > 3/20 ∧ t.skewness.p < cfg.significance_level then (1:ℚ)/2 else 0)
  + (if t.recovery_rate.tau < -(3/20) ∧ t.recovery_rate.p < cfg.significance_level
     then (1:ℚ)/2 else 0)

lemma warning_level_of_eq (cfg : DetectorConfig) (t : RollingTrends) :
    warning_level_of cfg t = min 3 ⌊warning_accum cfg t⌋ := by
  simp only [warning_level_of, warning_accum]
  rw [min_comm]
  congr 1
  congr 1
  split_ifs <;> ring

lemma detect_full (cfg : DetectorConfig) (trends : List ℚ → RollingTrends)
    (timeseries : List (Option ℚ)) (timestamps : Option (List ℚ))
    (h : ¬ (dropNaN timeseries).length < cfg.min_data_points) :
    detect cfg true trends timeseries timestamps =
      { critical_slowing_down :=
          decide (warning_level_of cfg (trends (dropNaN timeseries)) ≥ 2)
        warning_level := warning_level_of cfg (trends (dropNaN timeseries))
        variance_trend := (trends (dropNaN timeseries)).variance.tau
        autocorrelation_trend := (trends (dropNaN timeseries)).autocorrelation.tau
        skewness_trend := (trends (dropNaN timeseries)).skewness.tau
        recovery_rate_trend := (trends (dropNaN timeseries)).recovery_rate.tau
        estimated_months :=
          _estimate_time_to_tipping (trends (dropNaN timeseries)).variance.tau
            (trends (dropNaN timeseries)).autocorrelation.tau (dropNaN timeseries)
            (filtered_timestamps timeseries timestamps)
        confidence :=
          _calculate_confidence (warning_level_of cfg (trends (dropNaN timeseries)))
            (trends (dropNaN timeseries)).variance.p
            (trends (dropNaN timeseries)).autocorrelation.p
            (dropNaN timeseries).length
        metadata_error := none } := by
  simp only [detect]
  rw [if_neg (by simp : ¬ ((true : Bool) = false)), if_neg h]

/-- C3: on the full analysis path, the warning level equals the minimum of
3 and the floor of the accumulated indicator contributions (+1 for a
significant variance or autocorrelation trend above 0.2, else +0.5 above
0.1; +0.5 for a significant absolute skewness trend above 0.15; +0.5 for a
significant recovery-rate trend below -0.15), and critical slowing down
holds exactly when the warning level is at least 2. -/
theorem C3_warning_level_accumulation (cfg : DetectorConfig)
    (trends : List ℚ → RollingTrends) (timeseries : List (Option ℚ))
    (timestamps : Option (List ℚ))
    (h : cfg.min_data_points ≤ (dropNaN timeseries).length) :
    (detect cfg true trends timeseries timestamps).warning_level
      = min 3 ⌊warning_accum cfg (trends (dropNaN timeseries))⌋
    ∧ ((detect cfg true trends timeseries timestamps).critical_slowing_down = true
        ↔ 2 ≤ (detect cfg true trends timeseries timestamps).warning_level) := by
  rw [detect_full cfg trends timeseries timestamps (not_lt.mpr h)]
  refine ⟨warning_level_of_eq cfg (trends (dropNaN timeseries)), ?_⟩
  simp [decide_eq_true_iff, ge_iff_le]

/-- Trend oracle returning flat statistics with insignificant p-values. -/
def trivTrends : List ℚ → RollingTrends :=
  fun _ => ⟨⟨0, 1⟩, ⟨0, 1⟩, ⟨0, 1⟩, ⟨0, 1⟩⟩

/-- The detector configuration built by the source's constructor
defaults: window 24, lag 1, 50 minimum points, significance 0.05,
detrending on. -/
def cfgD : DetectorConfig := ⟨24, 1, 50, 1/20, true⟩

/-- A 50-point series with no NaN entries. -/
def series50 : List (Option ℚ) := List.replicate 50 (some 1)

/-- Witness for C3 at a 50-point series and the flat trend oracle. -/
theorem C3_witness :
    cfgD.min_data_points ≤ (dropNaN series50).length
    ∧ ((detect cfgD true trivTrends series50 none).warning_level
        = min 3 ⌊warning_accum cfgD (trivTrends (dropNaN series50))⌋
      ∧ ((detect cfgD true trivTrends series50 none).critical_slowing_down = true
          ↔ 2 ≤ (detect cfgD true trivTrends series50 none).warning_level)) :=
  ⟨by decide, C3_warning_level_accumulation cfgD trivTrends series50 none (by decide)⟩

lemma detect_insufficient (cfg : DetectorConfig)
    (trends : List ℚ → RollingTrends) (timeseries : List (Option ℚ))
    (timestamps : Option (List ℚ))
    (h : (dropNaN timeseries).length < cfg.min_data_points) :
    detect cfg true trends timeseries timestamps =
      { critical_slowing_down := false
        warning_level := 0
        variance_trend := 0
        autocorrelation_trend := 0
        skewness_trend := 0
        recovery_rate_trend := 0
        estimated_months := 0
        confidence := 0
        metadata_error := some ("Insufficient data: "
          ++ toString (dropNaN timeseries).length ++ " < "
          ++ toString cfg.min_data_points) } := by
  simp only [detect]
  rw [if_neg (by simp : ¬ ((true : Bool) = false)), if_pos h]

/-- C7: when fewer non-NaN points than the configured minimum remain, the
detector returns (rather than raising) the degraded result: warning level
0, no critical slowing down, confidence 0, all four trend statistics 0,
and a metadata note explaining the insufficient data. -/
theorem C7_insufficient_data_degraded (cfg : DetectorConfig)
    (trends : List ℚ → RollingTrends) (timeseries : List (Option ℚ))
    (timestamps : Option (List ℚ))
    (h : (dropNaN timeseries).length < cfg.min_data_points) :
    detect cfg true trends timeseries timestamps =
      { critical_slowing_down := false
        warning_level := 0
        variance_trend := 0
        autocorrelation_trend := 0
        skewness_trend := 0
        recovery_rate_trend := 0
        estimated_months := 0
        confidence := 0
        metadata_error := some ("Insufficient data: "
          ++ toString (dropNaN timeseries).length ++ " < "
          ++ toString cfg.min_data_points) } :=
  detect_insufficient cfg trends timeseries timestamps h

/-- A 10-point series, shorter than the default 50-point minimum. -/
def series10 : List (Option ℚ) := List.replicate 10 (some 1)

/-- Witness for C7 at a 10-point series under the default configuration. -/
theorem C7_witness :
    (dropNaN series10).length < cfgD.min_data_points
    ∧ detect cfgD true trivTrends series10 none =
      { critical_slowing_down := false
        warning_level := 0
        variance_trend := 0
        autocorrelation_trend := 0
        skewness_trend := 0
        recovery_rate_trend := 0
        estimated_months := 0
        confidence := 0
        metadata_error := some ("Insufficient data: "
          ++ toString (dropNaN series10).length ++ " < "
          ++ toString cfgD.min_data_points) } :=
  ⟨by decide, C7_insufficient_data_degraded cfgD trivTrends series10 none (by decide)⟩

lemma warning_accum_nonneg (cfg : DetectorConfig) (t : RollingTrends) :
    0 ≤ warning_accum cfg t := by
  unfold warning_accum
  split_ifs <;> norm_num

lemma warning_level_of_nonneg (cfg : DetectorConfig) (t : RollingTrends) :
    0 ≤ warning_level_of cfg t := by
  rw [warning_level_of_eq]
  refine le_min (by norm_num) (Int.le_floor.mpr ?_)
  push_cast
  exact warning_accum_nonneg cfg t

lemma warning_level_of_le_three (cfg : DetectorConfig) (t : RollingTrends) :
    warning_level_of cfg t ≤ 3 := by
  rw [warning_level_of_eq]
  exact min_le_left _ _

lemma calculate_confidence_bounds (wl : ℤ) (hwl : 0 ≤ wl) (p_var p_ac : ℚ) (n : ℕ) :
    0 ≤ _calculate_confidence wl p_var p_ac n
    ∧ _calculate_confidence wl p_var p_ac n ≤ 1 := by
  have hq : (0:ℚ) ≤ (wl : ℚ) * (2/10) :=
    mul_nonneg (by exact_mod_cast hwl) (by norm_num)
  constructor
  · simp only [_calculate_confidence]
    refine le_min ?_ (by norm_num)
    split_ifs <;> linarith
  · simp only [_calculate_confidence]
    exact min_le_right _ _

lemma estimate_months_mem (tv ta : ℚ) (ts : List ℚ) (stamps : Option (List ℚ)) :
    _estimate_time_to_tipping tv ta ts stamps ∈ ([12, 24, 36, 60] : List ℤ) := by
  simp only [_estimate_time_to_tipping]
  split_ifs <;> simp

lemma estimate_months_nonneg (tv ta : ℚ) (ts : List ℚ) (stamps : Option (List ℚ)) :
    0 ≤ _estimate_time_to_tipping tv ta ts stamps := by
  simp only [_estimate_time_to_tipping]
  split_ifs <;> norm_num

/-- C8 (amended): every detector result has an integer warning level
between 0 and 3 and a confidence in the unit interval; the estimated
months are nonnegative — one of 12, 24, 36 or 60 (hence positive) on the
full analysis path, but 0 (not positive) on the insufficient-data and
library-unavailable degraded results. -/
theorem C8_result_invariants (cfg : DetectorConfig) (scipy_available : Bool)
    (trends : List ℚ → RollingTrends) (timeseries : List (Option ℚ))
    (timestamps : Option (List ℚ)) :
    (0 ≤ (detect cfg scipy_available trends timeseries timestamps).warning_level
      ∧ (detect cfg scipy_available trends timeseries timestamps).warning_level ≤ 3)
    ∧ (0 ≤ (detect cfg scipy_available trends timeseries timestamps).confidence
      ∧ (detect cfg scipy_available trends timeseries timestamps).confidence ≤ 1)
    ∧ 0 ≤ (detect cfg scipy_available trends timeseries timestamps).estimated_months
    ∧ (scipy_available = true →
        cfg.min_data_points ≤ (dropNaN timeseries).length →
        (detect cfg scipy_available trends timeseries timestamps).estimated_months
          ∈ ([12, 24, 36, 60] : List ℤ)) := by
  cases scipy_available
  · refine ⟨⟨le_refl 0, show (0:ℤ) ≤ 3 by norm_num⟩,
      ⟨le_refl 0, show (0:ℚ) ≤ 1 by norm_num⟩, le_refl 0, ?_⟩
    intro hcontra
    exact absurd hcontra (by simp)
  · by_cases hlen : (dropNaN timeseries).length < cfg.min_data_points
    · rw [detect_insufficient cfg trends timeseries timestamps hlen]
      refine ⟨⟨le_refl 0, by norm_num⟩, ⟨le_refl 0, by norm_num⟩, le_refl 0, ?_⟩
      intro _ h2
      exact absurd h2 (not_le.mpr hlen)
    · rw [detect_full cfg trends timeseries timestamps hlen]
      refine ⟨⟨warning_level_of_nonneg _ _, warning_level_of_le_three _ _⟩,
        calculate_confidence_bounds _ (warning_level_of_nonneg _ _) _ _ _,
        estimate_months_nonneg (trends (dropNaN timeseries)).variance.tau
          (trends (dropNaN timeseries)).autocorrelation.tau (dropNaN timeseries)
          (filtered_timestamps timeseries timestamps),
        fun _ _ => estimate_months_mem (trends (dropNaN timeseries)).variance.tau
          (trends (dropNaN timeseries)).autocorrelation.tau (dropNaN timeseries)
          (filtered_timestamps timeseries timestamps)⟩

/-- Counterexample for C8 as stated: the insufficient-data degraded result
is a returned `TippingPointResult` whose `estimated_months` is 0, hence
not a positive integer. -/
theorem C8_counterexample :
    (detect cfgD true trivTrends series10 none).estimated_months = 0
    ∧ ¬ (0 < (detect cfgD true trivTrends series10 none).estimated_months) := by
  have h := detect_insufficient cfgD trivTrends series10 none (by decide)
  rw [h]
  exact ⟨rfl, by norm_num⟩

/-- Witness for C8 (amended) on the full analysis path: the estimated
months land in the positive menu 12, 24, 36, 60. -/
theorem C8_witness :
    (true = true)
    ∧ cfgD.min_data_points ≤ (dropNaN series50).length
    ∧ (detect cfgD true trivTrends series50 none).estimated_months
        ∈ ([12, 24, 36, 60] : List ℤ) :=
  ⟨rfl, by decide,
    (C8_result_invariants cfgD true trivTrends series50 none).2.2.2 rfl (by decide)⟩

/-- Timestamps at one-day spacing (median step 1 day). -/
def dailyStamps : List ℚ := [0, 1, 2]

/-- C4 (code evaluation): the month estimate comes from the trend-strength
ladder alone — 12 above 0.3, 24 above 0.2, 36 above 0.1, else 60 — and is
entirely independent of the timestamps: the daily-scale conversion factor
1/30.44 is computed but never applied, so for daily timestamps the code
returns 12 where the scaled value would have been 12/30.44. -/
theorem C4_months_ladder_timestamps_ignored :
    (∀ (tau_var tau_ac : ℚ) (ts : List ℚ) (stamps : Option (List ℚ)),
      _estimate_time_to_tipping tau_var tau_ac ts stamps =
        (if (|tau_var| + |tau_ac|) / 2 > 3/10 then 12
         else if (|tau_var| + |tau_ac|) / 2 > 1/5 then 24
         else if (|tau_var| + |tau_ac|) / 2 > 1/10 then 36
         else 60))
    ∧ (∀ (tau_var tau_ac : ℚ) (ts : List ℚ) (s1 s2 : Option (List ℚ)),
        _estimate_time_to_tipping tau_var tau_ac ts s1
          = _estimate_time_to_tipping tau_var tau_ac ts s2)
    ∧ months_per_step (some dailyStamps) = 25/761
    ∧ _estimate_time_to_tipping (2/5) (2/5) [] (some dailyStamps) = 12
    ∧ (12 : ℚ) * months_per_step (some dailyStamps) ≠ 12 := by
  have hm : months_per_step (some dailyStamps) = 25/761 := by
    norm_num [months_per_step, dailyStamps, diffs, np_median, sortQ, insertSorted]
  refine ⟨fun tv ta ts stamps => rfl, fun tv ta ts s1 s2 => rfl, hm, ?_, ?_⟩
  · have h1 : |(2/5 : ℚ)| = 2/5 := abs_of_nonneg (by norm_num)
    simp only [_estimate_time_to_tipping, h1]
    norm_num
  · rw [hm]
    norm_num
